import Mathlib

/-!
Shallow embedding of the multi-period FPL squad optimizer of
`src/fpl_solver/solver.py` (class `FPLOptimizer`, the module imported by
`run_solver.py`).

The optimizer builds one integer linear program per `solve` call:
binary squad / starting-XI / captain / chip / transfer variables indexed by
player and gameweek, integer transfer-bookkeeping variables, and continuous
chip-bonus variables, then hands the problem to the PuLP CBC backend.

The embedding keeps the names of the source: decision variables become fields of
`Assignment` (a map from each PuLP variable to its rational value), the
constraint set added by `FPLOptimizer.solve` becomes the `Feasible`
predicate (one field per constraint family, named after the constraint-name
f-strings of the source), the assembled objective becomes `objective`, and
the post-solve extraction block becomes `solveResult` / `extractGw`.
-/

namespace FplSolver

/-- Player position, the `position` column of the score table
(`"GK" | "DEF" | "MID" | "FWD"` in the source). -/
inductive Pos where
  | GK
  | DEF
  | MID
  | FWD
deriving DecidableEq

/-- `INITIAL_FREE_TRANSFERS` from `src/fpl_solver/config.py`. -/
def INITIAL_FREE_TRANSFERS : ℕ := 1

/-- `MAX_FREE_TRANSFERS_SAVED` from `src/fpl_solver/config.py`. -/
def MAX_FREE_TRANSFERS_SAVED : ℕ := 5

/-- `POINTS_PER_HIT` from `src/fpl_solver/config.py` (points deducted per
paid transfer). -/
def POINTS_PER_HIT : ℚ := 4

/-- The player score table (`player_data` DataFrame): row labels are
`0, ..., P-1`; each row carries name, team, position, cost and the
`expected_points_by_gw` mapping from actual gameweek number to projected
points.  `firstGw` is `current_gameweek_number_start`, the first key of the
the `expected_points_by_gw` dict of the first row. -/
structure PlayerTable where
  P : ℕ
  name : ℕ → String
  team : ℕ → String
  pos : ℕ → Pos
  cost : ℕ → ℚ
  xp : ℕ → ℕ → ℚ
  firstGw : ℕ

/-- The enforced-player rules computed by `FPLOptimizer.__init__` from the
configuration lists (`enforced_player_indices` and
`enforced_team_pos_requirements`); both are empty under the shipped
`config.py`. -/
structure EnforcedRules where
  playerIdx : List ℕ
  teamPos : List (String × Pos)

/-- The `chip_allowances` dict as consulted by `solve`: only the keys
`"bench_boost"` and `"triple_captain"` are read, each via
`.get(key, 0)` — `none` models an absent key. -/
structure ChipAllowances where
  bench_boost : Option ℕ
  triple_captain : Option ℕ

/-- `chip_allowances.get("bench_boost", 0)`. -/
def ChipAllowances.getBenchBoost (c : ChipAllowances) : ℕ :=
  c.bench_boost.getD 0

/-- `chip_allowances.get("triple_captain", 0)`. -/
def ChipAllowances.getTripleCaptain (c : ChipAllowances) : ℕ :=
  c.triple_captain.getD 0

/-- The caller-supplied arguments of `FPLOptimizer.solve`. -/
structure SolveParams where
  budget : ℚ
  max_players_per_team : ℕ
  chip_allowances : ChipAllowances
  num_gameweeks : ℕ

/-- A value for every decision variable of the built model, one field per
`LpVariable.dicts` call in `FPLOptimizer.solve`.  Player-indexed maps take
the row label first, the 0-based horizon week second; values are rationals
(the LP relaxation value — integrality and bounds are part of `Feasible`).
`transfer_in_vars`, `transfer_out_vars`, `transfers_made` and
`transfer_hits` are only declared for weeks `1 ≤ w < N` in the source;
their values elsewhere are ignored by all constraints. -/
structure Assignment where
  player_vars : ℕ → ℕ → ℚ
  starting_xi_vars : ℕ → ℕ → ℚ
  captain_var : ℕ → ℕ → ℚ
  use_bench_boost : ℕ → ℚ
  use_triple_captain : ℕ → ℚ
  transfer_in_vars : ℕ → ℕ → ℚ
  transfer_out_vars : ℕ → ℕ → ℚ
  transfers_made : ℕ → ℚ
  free_transfers_available : ℕ → ℚ
  transfer_hits : ℕ → ℚ
  is_bench_player : ℕ → ℕ → ℚ
  actual_bench_boost_points : ℕ → ℕ → ℚ
  actual_triple_captain_bonus : ℕ → ℕ → ℚ

/-- An `LpBinary` variable takes value 0 or 1. -/
def isBin (x : ℚ) : Prop := x = 0 ∨ x = 1

/-- An `LpInteger` variable with lower bound 0 takes a non-negative
integer value. -/
def isNatVal (x : ℚ) : Prop := ∃ n : ℕ, x = (n : ℚ)

/-- The actual gameweek number for 0-based horizon week `w`
(`gw_actual = current_gameweek_number_start + w`). -/
def gwActual (pd : PlayerTable) (w : ℕ) : ℕ := pd.firstGw + w

/-- Row labels of the given position
(`self.player_data[self.player_data["position"] == q].index`). -/
def posIdx (pd : PlayerTable) (q : Pos) : Finset ℕ :=
  (Finset.range pd.P).filter (fun i => pd.pos i = q)

/-- Row labels of the given team
(`self.player_data[self.player_data["team"] == t].index`). -/
def teamIdx (pd : PlayerTable) (t : String) : Finset ℕ :=
  (Finset.range pd.P).filter (fun i => pd.team i = t)

/-- Row labels matching a team-and-position enforcement requirement. -/
def teamPosIdx (pd : PlayerTable) (t : String) (q : Pos) : Finset ℕ :=
  (Finset.range pd.P).filter (fun i => pd.team i = t ∧ pd.pos i = q)

/-- The distinct team names of the table
(`self.player_data["team"].unique()`). -/
def teamsOf (pd : PlayerTable) : Finset String :=
  (Finset.range pd.P).image pd.team

/-- Feasibility of an assignment for the model built by
`FPLOptimizer.solve(budget, max_players_per_team, chip_allowances,
num_gameweeks)`: one field per constraint family added to `self.problem`,
named after the constraint-name f-string in the source, plus the variable
bound/integrality conditions of the `LpVariable.dicts` declarations.
Building the model requires `num_gameweeks ≥ 1` (with an empty horizon the
source crashes on `free_transfers_available[0]`); the `0 < N` guard on
`Initial_Free_Transfers` records that. -/
structure Feasible (pd : PlayerTable) (rules : EnforcedRules)
    (prm : SolveParams) (a : Assignment) : Prop where
  -- variable domains, from the LpVariable.dicts declarations
  player_bin : ∀ i < pd.P, ∀ w < prm.num_gameweeks, isBin (a.player_vars i w)
  starting_bin : ∀ i < pd.P, ∀ w < prm.num_gameweeks,
    isBin (a.starting_xi_vars i w)
  captain_bin : ∀ i < pd.P, ∀ w < prm.num_gameweeks, isBin (a.captain_var i w)
  bench_boost_bin : ∀ w < prm.num_gameweeks, isBin (a.use_bench_boost w)
  triple_captain_bin : ∀ w < prm.num_gameweeks, isBin (a.use_triple_captain w)
  tin_bin : ∀ i < pd.P, ∀ w, 1 ≤ w → w < prm.num_gameweeks →
    isBin (a.transfer_in_vars i w)
  tout_bin : ∀ i < pd.P, ∀ w, 1 ≤ w → w < prm.num_gameweeks →
    isBin (a.transfer_out_vars i w)
  made_nat : ∀ w, 1 ≤ w → w < prm.num_gameweeks → isNatVal (a.transfers_made w)
  ft_nat : ∀ w < prm.num_gameweeks, isNatVal (a.free_transfers_available w)
  ft_ub : ∀ w < prm.num_gameweeks,
    a.free_transfers_available w ≤ (MAX_FREE_TRANSFERS_SAVED : ℚ) + 1
  hits_nat : ∀ w, 1 ≤ w → w < prm.num_gameweeks → isNatVal (a.transfer_hits w)
  is_bench_bin : ∀ i < pd.P, ∀ w < prm.num_gameweeks,
    isBin (a.is_bench_player i w)
  bb_points_lb : ∀ i < pd.P, ∀ w < prm.num_gameweeks,
    0 ≤ a.actual_bench_boost_points i w
  tc_bonus_lb : ∀ i < pd.P, ∀ w < prm.num_gameweeks,
    0 ≤ a.actual_triple_captain_bonus i w
  -- bench-boost / triple-captain linearization, added inside the objective loop
  IsBench_Squad : ∀ i < pd.P, ∀ w < prm.num_gameweeks,
    a.is_bench_player i w ≤ a.player_vars i w
  IsBench_NotStarter : ∀ i < pd.P, ∀ w < prm.num_gameweeks,
    a.is_bench_player i w ≤ 1 - a.starting_xi_vars i w
  IsBench_Logical : ∀ i < pd.P, ∀ w < prm.num_gameweeks,
    a.is_bench_player i w ≥
      a.player_vars i w + (1 - a.starting_xi_vars i w) - 1
  BenchBoost_Contr_1 : ∀ i < pd.P, ∀ w < prm.num_gameweeks,
    a.actual_bench_boost_points i w ≤
      pd.xp i (gwActual pd w) * a.is_bench_player i w
  BenchBoost_Contr_2 : ∀ i < pd.P, ∀ w < prm.num_gameweeks,
    a.actual_bench_boost_points i w ≤
      pd.xp i (gwActual pd w) * a.use_bench_boost w
  BenchBoost_Contr_3 : ∀ i < pd.P, ∀ w < prm.num_gameweeks,
    a.actual_bench_boost_points i w ≥
      pd.xp i (gwActual pd w) * (a.is_bench_player i w + a.use_bench_boost w - 1)
  BenchBoost_Contr_4 : ∀ i < pd.P, ∀ w < prm.num_gameweeks,
    a.actual_bench_boost_points i w ≥ 0
  TripleCaptain_Contr_1 : ∀ i < pd.P, ∀ w < prm.num_gameweeks,
    a.actual_triple_captain_bonus i w ≤
      pd.xp i (gwActual pd w) * a.captain_var i w
  TripleCaptain_Contr_2 : ∀ i < pd.P, ∀ w < prm.num_gameweeks,
    a.actual_triple_captain_bonus i w ≤
      pd.xp i (gwActual pd w) * a.use_triple_captain w
  TripleCaptain_Contr_3 : ∀ i < pd.P, ∀ w < prm.num_gameweeks,
    a.actual_triple_captain_bonus i w ≥
      pd.xp i (gwActual pd w) * (a.captain_var i w + a.use_triple_captain w - 1)
  TripleCaptain_Contr_4 : ∀ i < pd.P, ∀ w < prm.num_gameweeks,
    a.actual_triple_captain_bonus i w ≥ 0
  -- per-gameweek squad constraints
  Total_Players : ∀ w < prm.num_gameweeks,
    ∑ i ∈ Finset.range pd.P, a.player_vars i w = 15
  Goalkeepers_Count : ∀ w < prm.num_gameweeks,
    ∑ i ∈ posIdx pd Pos.GK, a.player_vars i w = 2
  Defenders_Count : ∀ w < prm.num_gameweeks,
    ∑ i ∈ posIdx pd Pos.DEF, a.player_vars i w = 5
  Midfielders_Count : ∀ w < prm.num_gameweeks,
    ∑ i ∈ posIdx pd Pos.MID, a.player_vars i w = 5
  Forwards_Count : ∀ w < prm.num_gameweeks,
    ∑ i ∈ posIdx pd Pos.FWD, a.player_vars i w = 3
  Total_Budget : ∀ w < prm.num_gameweeks,
    ∑ i ∈ Finset.range pd.P, pd.cost i * a.player_vars i w ≤ prm.budget
  Max_Players_from_team : ∀ w < prm.num_gameweeks, ∀ t ∈ teamsOf pd,
    ∑ i ∈ teamIdx pd t, a.player_vars i w ≤ (prm.max_players_per_team : ℚ)
  Total_Starting_XI_Players : ∀ w < prm.num_gameweeks,
    ∑ i ∈ Finset.range pd.P, a.starting_xi_vars i w = 11
  StartingXI_in_Squad : ∀ i < pd.P, ∀ w < prm.num_gameweeks,
    a.starting_xi_vars i w ≤ a.player_vars i w
  Starting_Goalkeepers_Count : ∀ w < prm.num_gameweeks,
    ∑ i ∈ posIdx pd Pos.GK, a.starting_xi_vars i w = 1
  Min_Starting_Defenders_Count : ∀ w < prm.num_gameweeks,
    ∑ i ∈ posIdx pd Pos.DEF, a.starting_xi_vars i w ≥ 3
  Min_Starting_Midfielders_Count : ∀ w < prm.num_gameweeks,
    ∑ i ∈ posIdx pd Pos.MID, a.starting_xi_vars i w ≥ 2
  Min_Starting_Forwards_Count : ∀ w < prm.num_gameweeks,
    ∑ i ∈ posIdx pd Pos.FWD, a.starting_xi_vars i w ≥ 1
  One_Captain : ∀ w < prm.num_gameweeks,
    ∑ i ∈ Finset.range pd.P, a.captain_var i w = 1
  Captain_in_StartingXI : ∀ i < pd.P, ∀ w < prm.num_gameweeks,
    a.captain_var i w ≤ a.starting_xi_vars i w
  Enforce_Player : ∀ j ∈ rules.playerIdx, ∀ w < prm.num_gameweeks,
    a.player_vars j w = 1
  Enforce_TeamPos : ∀ tq ∈ rules.teamPos, (teamPosIdx pd tq.1 tq.2).Nonempty →
    ∀ w < prm.num_gameweeks, 1 ≤ ∑ i ∈ teamPosIdx pd tq.1 tq.2, a.player_vars i w
  -- total chip usage over the whole horizon
  Max_Bench_Boost_Usage_Total :
    ∑ j ∈ Finset.range prm.num_gameweeks, a.use_bench_boost j ≤
      (prm.chip_allowances.getBenchBoost : ℚ)
  Max_Triple_Captain_Usage_Total :
    ∑ j ∈ Finset.range prm.num_gameweeks, a.use_triple_captain j ≤
      (prm.chip_allowances.getTripleCaptain : ℚ)
  -- inter-gameweek transfer constraints
  Initial_Free_Transfers : 0 < prm.num_gameweeks →
    a.free_transfers_available 0 = (INITIAL_FREE_TRANSFERS : ℚ)
  Transfers_Made : ∀ w, 1 ≤ w → w < prm.num_gameweeks →
    a.transfers_made w = ∑ i ∈ Finset.range pd.P, a.transfer_in_vars i w
  Transfers_In_Equals_Out : ∀ w, 1 ≤ w → w < prm.num_gameweeks →
    ∑ i ∈ Finset.range pd.P, a.transfer_in_vars i w =
      ∑ i ∈ Finset.range pd.P, a.transfer_out_vars i w
  Free_Transfers_Calc_1 : ∀ w, 1 ≤ w → w < prm.num_gameweeks →
    a.free_transfers_available w ≤
      a.free_transfers_available (w - 1) - a.transfers_made w + 1
  Free_Transfers_Calc_2 : ∀ w, 1 ≤ w → w < prm.num_gameweeks →
    a.free_transfers_available w ≤ (MAX_FREE_TRANSFERS_SAVED : ℚ) + 1
  Free_Transfers_Non_Negative : ∀ w, 1 ≤ w → w < prm.num_gameweeks →
    a.free_transfers_available w ≥ 0
  Transfer_Hits_Calc_1 : ∀ w, 1 ≤ w → w < prm.num_gameweeks →
    a.transfer_hits w ≥ a.transfers_made w - a.free_transfers_available (w - 1)
  Transfer_Hits_Calc_2 : ∀ w, 1 ≤ w → w < prm.num_gameweeks →
    a.transfer_hits w ≥ 0
  Squad_Continuity : ∀ i < pd.P, ∀ w, 1 ≤ w → w < prm.num_gameweeks →
    a.player_vars i w =
      a.player_vars i (w - 1) - a.transfer_out_vars i w + a.transfer_in_vars i w
  No_Simultaneous_Transfer : ∀ i < pd.P, ∀ w, 1 ≤ w → w < prm.num_gameweeks →
    a.transfer_in_vars i w + a.transfer_out_vars i w ≤ 1

/-- `base_points_expression_gw`: projected points of the starting XI of
horizon week `w`. -/
def base_points_expression (pd : PlayerTable) (a : Assignment) (w : ℕ) : ℚ :=
  ∑ i ∈ Finset.range pd.P, pd.xp i (gwActual pd w) * a.starting_xi_vars i w

/-- `captain_points_bonus_gw`: one additional full share of the captain projected points. -/
def captain_points_bonus (pd : PlayerTable) (a : Assignment) (w : ℕ) : ℚ :=
  ∑ i ∈ Finset.range pd.P, pd.xp i (gwActual pd w) * a.captain_var i w

/-- `total_bench_boost_points_gw`: sum of the bench-boost bonus variables of
week `w`. -/
def total_bench_boost_points (pd : PlayerTable) (a : Assignment) (w : ℕ) : ℚ :=
  ∑ i ∈ Finset.range pd.P, a.actual_bench_boost_points i w

/-- `total_triple_captain_bonus_points_gw`: sum of the triple-captain bonus
variables of week `w`. -/
def total_triple_captain_bonus (pd : PlayerTable) (a : Assignment) (w : ℕ) :
    ℚ :=
  ∑ i ∈ Finset.range pd.P, a.actual_triple_captain_bonus i w

/-- The `total_objective_points` list exactly as `solve` assembles it: for
each week `w` (in order) the base-XI term, the captain-bonus term, the
bench-boost total and the triple-captain total, and finally the single hit
penalty term `-POINTS_PER_HIT * lpSum(transfer_hits[w] for w in
range(1, num_gameweeks))`. -/
def total_objective_points (pd : PlayerTable) (prm : SolveParams)
    (a : Assignment) : List ℚ :=
  ((List.range prm.num_gameweeks).flatMap fun w =>
    [base_points_expression pd a w, captain_points_bonus pd a w,
     total_bench_boost_points pd a w, total_triple_captain_bonus pd a w]) ++
  [-POINTS_PER_HIT *
    ∑ w ∈ Finset.Ico 1 prm.num_gameweeks, a.transfer_hits w]

/-- The assembled objective, `lpSum(total_objective_points)`. -/
def objective (pd : PlayerTable) (prm : SolveParams) (a : Assignment) : ℚ :=
  (total_objective_points pd prm a).sum

/-- An assignment is optimal when it is feasible and no feasible assignment
attains a larger objective value (the model is `LpMaximize`). -/
def Optimal (pd : PlayerTable) (rules : EnforcedRules) (prm : SolveParams)
    (a : Assignment) : Prop :=
  Feasible pd rules prm a ∧
    ∀ b : Assignment, Feasible pd rules prm b →
      objective pd prm b ≤ objective pd prm a

/-- The Python builtin `round` (round half to even, as applied by the extraction code
to solved variable values via `int(round(...))`). -/
def pyRound (q : ℚ) : ℤ :=
  if q - (⌊q⌋ : ℚ) < 1 / 2 then ⌊q⌋
  else if q - (⌊q⌋ : ℚ) > 1 / 2 then ⌊q⌋ + 1
  else if ⌊q⌋ % 2 = 0 then ⌊q⌋ else ⌊q⌋ + 1

/-- One row of the per-gameweek squad copy
(`selected_squad_gw = self.player_data[...].copy()` plus the annotation
columns the extractor adds to the copy). -/
structure SquadRow where
  idx : ℕ
  name : String
  team : String
  pos : Pos
  cost : ℚ
  is_starter : Bool
  is_captain : Bool
  transfer_in : Bool
  transfer_out : Bool

/-- The row labels whose squad variable solved to 1 in week `w`. -/
def selectedIdx (pd : PlayerTable) (a : Assignment) (w : ℕ) : List ℕ :=
  (List.range pd.P).filter (fun i => decide (a.player_vars i w = 1))

/-- One entry of `selected_squad_history`
(`self.selected_squad_history[f"GW{gw_actual}"] = {...}`). -/
structure GwRecord where
  squad : List SquadRow
  total_cost : ℚ
  expected_points_from_xi : ℚ
  bench_boost_used : Bool
  triple_captain_used : Bool
  total_bench_boost_points : ℚ
  total_triple_captain_bonus : ℚ
  transfers_in_count : ℕ
  transfers_out_count : ℕ
  transfer_hits : ℤ
  free_transfers_available_next_gw : ℤ

/-- The extraction step of `FPLOptimizer.solve` for one horizon week `w`,
run only after an `"Optimal"` status: rebuilds the squad copy with
starter/captain/transfer annotations and the derived per-week summary
fields from the solved variable values. -/
def extractGw (pd : PlayerTable) (prm : SolveParams) (a : Assignment)
    (w : ℕ) : GwRecord :=
  let sel := selectedIdx pd a w
  { squad := sel.map fun i =>
      { idx := i
        name := pd.name i
        team := pd.team i
        pos := pd.pos i
        cost := pd.cost i
        is_starter := decide (a.starting_xi_vars i w = 1)
        is_captain := decide (a.captain_var i w = 1)
        transfer_in := if 0 < w then decide (a.transfer_in_vars i w = 1)
          else false
        transfer_out := if 0 < w then decide (a.transfer_out_vars i w = 1)
          else false }
    total_cost := (sel.map pd.cost).sum
    expected_points_from_xi := base_points_expression pd a w
    bench_boost_used := decide (a.use_bench_boost w ≠ 0)
    triple_captain_used := decide (a.use_triple_captain w ≠ 0)
    total_bench_boost_points := total_bench_boost_points pd a w
    total_triple_captain_bonus := total_triple_captain_bonus pd a w
    transfers_in_count := if 0 < w then
        ((List.range pd.P).filter
          (fun i => decide (a.transfer_in_vars i w = 1))).length
      else 0
    transfers_out_count := if 0 < w then
        ((List.range pd.P).filter
          (fun i => decide (a.transfer_out_vars i w = 1))).length
      else 0
    transfer_hits := if 0 < w then pyRound (a.transfer_hits w) else 0
    free_transfers_available_next_gw :=
      if w < prm.num_gameweeks - 1 then pyRound (a.free_transfers_available w)
      else 0 }

/-- `selected_squad_history` after a successful solve: one record per
horizon week, keyed by the actual gameweek number. -/
def buildHistory (pd : PlayerTable) (prm : SolveParams) (a : Assignment) :
    List (ℕ × GwRecord) :=
  (List.range prm.num_gameweeks).map fun w => (gwActual pd w, extractGw pd prm a w)

/-- The `used_chips` entry for one week. -/
structure ChipFlags where
  bench_boost : Bool
  triple_captain : Bool

/-- The result-holding attributes of an `FPLOptimizer` instance (the score
table and enforcement rules fixed at construction, and the mutable result
state `selected_squad_history`, `total_cost`, `total_expected_points`,
`total_transfer_hits`, `used_chips`). -/
structure OptimizerState where
  player_data : PlayerTable
  enforced : EnforcedRules
  selected_squad_history : List (ℕ × GwRecord)
  total_cost : ℚ
  total_expected_points : ℚ
  total_transfer_hits : ℤ
  used_chips : List (ℕ × ChipFlags)

/-- PuLP problem status after `problem.solve` (the keys of the PuLP
`LpStatus` dict).  CBC reports a time-boxed run that found an
integer-feasible but not proven-optimal solution with problem status
`NotSolved` (solution status `LpSolutionIntegerFeasible`); only proven
optimality yields the status whose `LpStatus` string is `"Optimal"`. -/
inductive LpStatusCode where
  | optimal
  | notSolved
  | infeasible
  | unbounded
  | undefined
deriving DecidableEq

/-- The PuLP `LpStatus` dict: status code to display string. -/
def lpStatusName : LpStatusCode → String
  | .optimal => "Optimal"
  | .notSolved => "Not Solved"
  | .infeasible => "Infeasible"
  | .unbounded => "Unbounded"
  | .undefined => "Undefined"

/-- Outcome of the backend call `self.problem.solve(PULP_CBC_CMD(msg=0))`:
either it returns (leaving a status and a value for every variable) or it
raises an exception (the `except Exception` branch). -/
inductive SolveOutcome where
  | finished (s : LpStatusCode) (a : Assignment)
  | raised

/-- Result state of the failure branch of `solve` (the `else` branch on a
non-"Optimal" status): history, totals and chip usage all reset. -/
def resetResults (st : OptimizerState) : OptimizerState :=
  { st with
    selected_squad_history := []
    total_cost := 0
    total_expected_points := 0
    used_chips := []
    total_transfer_hits := 0 }

/-- The tail of `FPLOptimizer.solve` from the `try:` block onward, as a
function of the backend outcome: on an exception, print and `return False`
(result state untouched); on status `"Optimal"`, rebuild
`selected_squad_history` via the extraction loop, recompute the overall
totals (`total_cost` from the record of the final week, `total_expected_points`
from the objective value, `total_transfer_hits` accumulated from the
per-week rounded hit counts) and `return True`; on any other status, reset
all result state and `return False`.  The final-week `total_cost` lookup
mirrors `self.selected_squad_history[f"GW{start + N - 1}"]["total_cost"]`
(with an empty horizon the source would raise a `KeyError` there; the
`getD 0` default is unreachable for `num_gameweeks ≥ 1`). -/
def solveResult (st : OptimizerState) (prm : SolveParams)
    (outcome : SolveOutcome) : OptimizerState × Bool :=
  match outcome with
  | .raised => (st, false)
  | .finished s a =>
    if lpStatusName s = "Optimal" then
      let pd := st.player_data
      let hist := buildHistory pd prm a
      ({ st with
         selected_squad_history := hist
         total_transfer_hits :=
           ((List.range prm.num_gameweeks).map fun w =>
             if 0 < w then pyRound (a.transfer_hits w) else 0).sum
         total_cost :=
           ((hist.lookup (pd.firstGw + prm.num_gameweeks - 1)).map
             (fun r => r.total_cost)).getD 0
         total_expected_points := objective pd prm a
         used_chips := (List.range prm.num_gameweeks).map fun w =>
           (gwActual pd w,
            { bench_boost := decide (a.use_bench_boost w ≠ 0)
              triple_captain := decide (a.use_triple_captain w ≠ 0) }) },
       true)
    else
      (resetResults st, false)

/-- `required_columns` of `FPLOptimizer.__init__`. -/
def requiredColumns : List String :=
  ["name", "team", "position", "cost", "expected_points_by_gw"]

/-- `missing_cols` as computed by `__init__`: the required columns absent
from the table. -/
def missing_columns (cols : List String) : List String :=
  requiredColumns.filter (fun c => !(cols.contains c))

/-- The validation at the top of `FPLOptimizer.__init__`, which runs before
any decision variable or constraint exists (variables are only created
inside `solve`): if any required column is absent, raise `ValueError`
naming the missing columns; otherwise proceed. -/
def initCheck (cols : List String) : Except (List String) Unit :=
  if requiredColumns.all cols.contains then Except.ok ()
  else Except.error (missing_columns cols)

/-- The objective as the specification words it: for every week, the
starting-XI points plus the additional full captain share plus the
bench-boost and triple-captain bonus terms, minus `points_per_hit` times
the total hits over the whole horizon. -/
def specObjective (pd : PlayerTable) (prm : SolveParams) (a : Assignment) :
    ℚ :=
  (∑ w ∈ Finset.range prm.num_gameweeks,
    (base_points_expression pd a w + captain_points_bonus pd a w +
     total_bench_boost_points pd a w + total_triple_captain_bonus pd a w)) -
  POINTS_PER_HIT * ∑ w ∈ Finset.Ico 1 prm.num_gameweeks, a.transfer_hits w

lemma flatMap_range_sum (g : ℕ → List ℚ) :
    ∀ n : ℕ, ((List.range n).flatMap g).sum = ∑ w ∈ Finset.range n, (g w).sum := by
  intro n
  induction n with
  | zero => simp
  | succ n ih =>
    rw [List.range_succ, List.flatMap_append, List.sum_append, ih,
      Finset.sum_range_succ]
    simp

/-- The list-assembled objective regrouped as one sum per week minus the
hit penalty. -/
lemma objective_eq_spec (pd : PlayerTable) (prm : SolveParams)
    (a : Assignment) : objective pd prm a = specObjective pd prm a := by
  unfold objective total_objective_points specObjective
  rw [List.sum_append, flatMap_range_sum]
  simp only [List.sum_cons, List.sum_nil, List.sum_singleton]
  ring_nf

/-- McCormick-style bound set: with a non-negative value `v`, binary
indicator `I` and binary activation flag `A`, the four linear constraints
force `B = v` exactly when `I = 1` and `A = 1`, and `B = 0` otherwise. -/
lemma mccormick_eq (v I A B : ℚ) (hv : 0 ≤ v) (hI : isBin I) (hA : isBin A)
    (h1 : B ≤ v * I) (h2 : B ≤ v * A) (h3 : B ≥ v * (I + A - 1))
    (h4 : B ≥ 0) : B = if I = 1 ∧ A = 1 then v else 0 := by
  rcases hI with hI | hI <;> rcases hA with hA | hA <;>
    subst hI <;> subst hA <;> norm_num at h1 h2 h3 ⊢ <;> linarith

/-- C3.  Every feasible assignment of the built model satisfies the squad
continuity law: for every player `p` and week `1 ≤ w ≤ N - 1`,
`squad[p,w] = squad[p,w-1] - transfer_out[p,w] + transfer_in[p,w]`. -/
theorem claim_C3_squad_continuity (pd : PlayerTable) (rules : EnforcedRules)
    (prm : SolveParams) (a : Assignment) (hf : Feasible pd rules prm a)
    (p : ℕ) (hp : p < pd.P) (w : ℕ) (h1 : 1 ≤ w)
    (h2 : w ≤ prm.num_gameweeks - 1) :
    a.player_vars p w =
      a.player_vars p (w - 1) - a.transfer_out_vars p w +
        a.transfer_in_vars p w :=
  hf.Squad_Continuity p hp w h1 (by omega)

/-- C5.  The McCormick bound set `B ≤ v·I`, `B ≤ v·A`, `B ≥ v·(I+A-1)`,
`B ≥ 0` pins `B` to `v` when `I = 1 = A` and to `0` otherwise; in
particular, in every feasible assignment each
`actual_bench_boost_points[i][w]` (resp.
`actual_triple_captain_bonus[i][w]`) equals the projected points of the player
exactly when its structural indicator and chip flag are both 1, and 0
otherwise. -/
theorem claim_C5_chip_linearization :
    (∀ v I A B : ℚ, 0 ≤ v → isBin I → isBin A →
      B ≤ v * I → B ≤ v * A → B ≥ v * (I + A - 1) → B ≥ 0 →
      B = if I = 1 ∧ A = 1 then v else 0) ∧
    (∀ (pd : PlayerTable) (rules : EnforcedRules) (prm : SolveParams)
        (a : Assignment), Feasible pd rules prm a →
      ∀ i < pd.P, ∀ w < prm.num_gameweeks, 0 ≤ pd.xp i (gwActual pd w) →
        a.actual_bench_boost_points i w =
          (if a.is_bench_player i w = 1 ∧ a.use_bench_boost w = 1
           then pd.xp i (gwActual pd w) else 0) ∧
        a.actual_triple_captain_bonus i w =
          (if a.captain_var i w = 1 ∧ a.use_triple_captain w = 1
           then pd.xp i (gwActual pd w) else 0)) := by
  refine ⟨mccormick_eq, ?_⟩
  intro pd rules prm a hf i hi w hw hxp
  exact ⟨mccormick_eq _ _ _ _ hxp (hf.is_bench_bin i hi w hw)
      (hf.bench_boost_bin w hw) (hf.BenchBoost_Contr_1 i hi w hw)
      (hf.BenchBoost_Contr_2 i hi w hw) (hf.BenchBoost_Contr_3 i hi w hw)
      (hf.BenchBoost_Contr_4 i hi w hw),
    mccormick_eq _ _ _ _ hxp (hf.captain_bin i hi w hw)
      (hf.triple_captain_bin w hw) (hf.TripleCaptain_Contr_1 i hi w hw)
      (hf.TripleCaptain_Contr_2 i hi w hw) (hf.TripleCaptain_Contr_3 i hi w hw)
      (hf.TripleCaptain_Contr_4 i hi w hw)⟩

lemma binary_nonneg {x : ℚ} (h : isBin x) : 0 ≤ x := by
  rcases h with h | h <;> simp [h]

/-- Under a zero total-usage allowance, every chip activation variable of
the horizon is forced to 0 by the total-usage constraint. -/
lemma chip_vars_zero {N : ℕ} {u : ℕ → ℚ}
    (hbin : ∀ w < N, isBin (u w))
    (hsum : ∑ j ∈ Finset.range N, u j ≤ 0) :
    ∀ w < N, u w = 0 := by
  intro w hw
  have hnn : ∀ j ∈ Finset.range N, 0 ≤ u j := fun j hj =>
    binary_nonneg (hbin j (Finset.mem_range.mp hj))
  have hz : ∑ j ∈ Finset.range N, u j = 0 :=
    le_antisymm hsum (Finset.sum_nonneg hnn)
  exact (Finset.sum_eq_zero_iff_of_nonneg hnn).mp hz w (Finset.mem_range.mpr hw)

/-- C6.  A zero (or absent) chip allowance makes every activation variable
of that chip 0 in every feasible assignment — enforced by the total-usage
constraint — and consequently zeroes every corresponding bonus variable;
stated for bench boost and for triple captain. -/
theorem claim_C6_zero_allowance_excludes_chip (pd : PlayerTable)
    (rules : EnforcedRules) (prm : SolveParams) (a : Assignment)
    (hf : Feasible pd rules prm a) :
    (prm.chip_allowances.getBenchBoost = 0 →
      (∀ w < prm.num_gameweeks, a.use_bench_boost w = 0) ∧
      (∀ i < pd.P, ∀ w < prm.num_gameweeks,
        a.actual_bench_boost_points i w = 0)) ∧
    (prm.chip_allowances.getTripleCaptain = 0 →
      (∀ w < prm.num_gameweeks, a.use_triple_captain w = 0) ∧
      (∀ i < pd.P, ∀ w < prm.num_gameweeks,
        a.actual_triple_captain_bonus i w = 0)) := by
  constructor
  · intro hzero
    have hsum := hf.Max_Bench_Boost_Usage_Total
    rw [hzero] at hsum
    norm_num at hsum
    have hu := chip_vars_zero hf.bench_boost_bin hsum
    refine ⟨hu, fun i hi w hw => ?_⟩
    have h2 := hf.BenchBoost_Contr_2 i hi w hw
    rw [hu w hw, mul_zero] at h2
    exact le_antisymm h2 (hf.BenchBoost_Contr_4 i hi w hw)
  · intro hzero
    have hsum := hf.Max_Triple_Captain_Usage_Total
    rw [hzero] at hsum
    norm_num at hsum
    have hu := chip_vars_zero hf.triple_captain_bin hsum
    refine ⟨hu, fun i hi w hw => ?_⟩
    have h2 := hf.TripleCaptain_Contr_2 i hi w hw
    rw [hu w hw, mul_zero] at h2
    exact le_antisymm h2 (hf.TripleCaptain_Contr_4 i hi w hw)

/-- C7.  Construction validates the score table before anything else: it
raises exactly when a required column (name, team, position, cost,
expected_points_by_gw) is absent, the raised error names precisely the
missing columns, and a table containing all five columns passes the
check. -/
theorem claim_C7_required_columns (cols : List String) :
    (initCheck cols = Except.ok () ↔ ∀ c ∈ requiredColumns, c ∈ cols) ∧
    ((∃ c ∈ requiredColumns, c ∉ cols) →
      initCheck cols = Except.error (missing_columns cols) ∧
      missing_columns cols ≠ []) ∧
    (∀ c, c ∈ missing_columns cols ↔ c ∈ requiredColumns ∧ c ∉ cols) := by
  have hmem : ∀ c, c ∈ missing_columns cols ↔ c ∈ requiredColumns ∧ c ∉ cols := by
    intro c
    simp [missing_columns, List.mem_filter]
  refine ⟨?_, ?_, hmem⟩
  · unfold initCheck
    split
    · rename_i h
      simp only [List.all_eq_true, List.elem_iff] at h
      exact iff_of_true rfl h
    · rename_i h
      simp only [List.all_eq_true, List.elem_iff] at h
      push_neg at h
      obtain ⟨c, hc, hnc⟩ := h
      constructor
      · intro habs
        exact absurd habs (by simp)
      · intro hall
        exact absurd (hall c hc) hnc
  · rintro ⟨c, hc, hnc⟩
    have hnall : ¬ requiredColumns.all cols.contains = true := by
      simp only [List.all_eq_true, List.elem_iff]
      push_neg
      exact ⟨c, hc, hnc⟩
    refine ⟨by simp [initCheck, hnall], ?_⟩
    exact List.ne_nil_of_mem ((hmem c).mpr ⟨hc, hnc⟩)

/-- C8.  The assembled objective equals, over the horizon, the sum per
week of starting-XI points, the additional full captain share, the
bench-boost bonus terms and the triple-captain bonus terms, minus
`POINTS_PER_HIT` times the total hits. -/
theorem claim_C8_objective_shape (pd : PlayerTable) (prm : SolveParams)
    (a : Assignment) : objective pd prm a = specObjective pd prm a :=
  objective_eq_spec pd prm a

/-- C9.  The optimizer never mutates its player input: whatever the
backend outcome and returned flag, the score table held by the optimizer
is identical before and after `solve` (annotations are added only to the
per-gameweek copies stored in the roster history). -/
theorem claim_C9_player_data_preserved (st : OptimizerState)
    (prm : SolveParams) (outcome : SolveOutcome) :
    ((solveResult st prm outcome).1).player_data = st.player_data := by
  cases outcome with
  | raised => rfl
  | finished s a =>
    by_cases h : lpStatusName s = "Optimal" <;>
      simp [solveResult, resetResults, h]

/-- A one-player score table for evaluating the extraction and
status-handling paths on concrete inputs. -/
def cexPd : PlayerTable :=
  { P := 1
    name := fun _ => "Solo Keeper"
    team := fun _ => "Solo FC"
    pos := fun _ => Pos.GK
    cost := fun _ => 4
    xp := fun _ _ => 2
    firstGw := 1 }

/-- A one-week parameter set for the concrete evaluations. -/
def cexPrm : SolveParams :=
  { budget := 100
    max_players_per_team := 3
    chip_allowances := { bench_boost := none, triple_captain := none }
    num_gameweeks := 1 }

/-- A concrete variable assignment (all zeros) as a stand-in solver
answer; `solveResult` extracts whatever values the backend reports. -/
def cexAsg : Assignment :=
  { player_vars := fun _ _ => 0
    starting_xi_vars := fun _ _ => 0
    captain_var := fun _ _ => 0
    use_bench_boost := fun _ => 0
    use_triple_captain := fun _ => 0
    transfer_in_vars := fun _ _ => 0
    transfer_out_vars := fun _ _ => 0
    transfers_made := fun _ => 0
    free_transfers_available := fun _ => 0
    transfer_hits := fun _ => 0
    is_bench_player := fun _ _ => 0
    actual_bench_boost_points := fun _ _ => 0
    actual_triple_captain_bonus := fun _ _ => 0 }

/-- A freshly constructed optimizer state: empty history, zero totals. -/
def cexSt0 : OptimizerState :=
  { player_data := cexPd
    enforced := { playerIdx := [], teamPos := [] }
    selected_squad_history := []
    total_cost := 0
    total_expected_points := 0
    total_transfer_hits := 0
    used_chips := [] }

/-- The optimizer state after one successful (`"Optimal"`) solve call:
its roster history is populated. -/
def cexSt1 : OptimizerState :=
  (solveResult cexSt0 cexPrm
    (SolveOutcome.finished LpStatusCode.optimal cexAsg)).1

/-- C1 counterexample.  A FEASIBLE-but-not-OPTIMAL backend answer (PuLP
status `"Not Solved"` with variable values, as CBC reports a time-boxed
integer-feasible stop) makes `solve` return `False` with an empty roster
history — not `True` with a populated history as the claim states. -/
theorem claim_C1_counterexample :
    (solveResult cexSt0 cexPrm
      (SolveOutcome.finished LpStatusCode.notSolved cexAsg)).2 = false ∧
    (solveResult cexSt0 cexPrm
      (SolveOutcome.finished LpStatusCode.notSolved cexAsg)).1.selected_squad_history
      = [] := by
  constructor <;> simp [solveResult, lpStatusName, resetResults]

/-- C1 amended.  `solve` treats a FEASIBLE-but-not-OPTIMAL status exactly
like INFEASIBLE, not like OPTIMAL: for any optimizer state, parameters and
returned assignment it resets all result state and returns `False`; only
the `"Optimal"` status string is accepted as success. -/
theorem claim_C1_feasible_status_is_failure (st : OptimizerState)
    (prm : SolveParams) (a : Assignment) :
    solveResult st prm (SolveOutcome.finished LpStatusCode.notSolved a) =
      (resetResults st, false) ∧
    solveResult st prm (SolveOutcome.finished LpStatusCode.infeasible a) =
      (resetResults st, false) := by
  constructor <;> simp [solveResult, lpStatusName]

/-- C2 counterexample.  After a successful solve (first conjunct), a
backend exception on the next call makes `solve` return `False` but leaves
the previously populated roster history in place — result state is not
reset to empty on the exception path. -/
theorem claim_C2_counterexample :
    (solveResult cexSt0 cexPrm
      (SolveOutcome.finished LpStatusCode.optimal cexAsg)).2 = true ∧
    (solveResult cexSt1 cexPrm SolveOutcome.raised).2 = false ∧
    (solveResult cexSt1 cexPrm SolveOutcome.raised).1.selected_squad_history
      ≠ [] := by
  refine ⟨?_, rfl, ?_⟩
  · simp [solveResult, lpStatusName]
  · show cexSt1.selected_squad_history ≠ []
    simp [cexSt1, solveResult, lpStatusName, buildHistory, cexPrm]

/-- C2 amended.  When the solver reports any non-`"Optimal"` status,
`solve` resets all result state (history, totals, chip usage) to
empty/zero and returns `False`; when the backend raises an exception,
`solve` returns `False` but leaves the result state exactly as it was, so
the populated history of a prior successful call persists. -/
theorem claim_C2_failure_paths (st : OptimizerState) (prm : SolveParams) :
    (∀ (s : LpStatusCode) (a : Assignment), lpStatusName s ≠ "Optimal" →
      solveResult st prm (SolveOutcome.finished s a) =
        (resetResults st, false)) ∧
    solveResult st prm SolveOutcome.raised = (st, false) := by
  refine ⟨fun s a hs => ?_, rfl⟩
  simp [solveResult, hs]

/-- C2 witness.  The amended failure-path behaviour evaluated at the
INFEASIBLE status on the concrete one-player instance. -/
theorem claim_C2_witness :
    solveResult cexSt0 cexPrm
      (SolveOutcome.finished LpStatusCode.infeasible cexAsg) =
      (resetResults cexSt0, false) :=
  (claim_C2_failure_paths cexSt0 cexPrm).1 LpStatusCode.infeasible cexAsg
    (by simp [lpStatusName])

/-- C10.  After a successful solve over `N` gameweeks, the record stored
for horizon week `w` reports `free_transfers_available_next_gw` as the
rounded solved value of `free_transfers_available[w]` for every week
before the last, and as the constant 0 for the final week, regardless of
the solved value of `free_transfers_available[N-1]`. -/
theorem claim_C10_final_week_free_transfers (st : OptimizerState)
    (prm : SolveParams) (a : Assignment) (w : ℕ)
    (hw : w < prm.num_gameweeks) :
    ((solveResult st prm
        (SolveOutcome.finished LpStatusCode.optimal a)).1.selected_squad_history)[w]?
      = some (gwActual st.player_data w, extractGw st.player_data prm a w) ∧
    (extractGw st.player_data prm a w).free_transfers_available_next_gw =
      (if w + 1 = prm.num_gameweeks then 0
       else pyRound (a.free_transfers_available w)) := by
  constructor
  · simp only [solveResult, lpStatusName, if_pos, buildHistory]
    rw [List.getElem?_map, List.getElem?_range hw]
    rfl
  · show (if w < prm.num_gameweeks - 1
        then pyRound (a.free_transfers_available w) else 0) = _
    by_cases h : w + 1 = prm.num_gameweeks
    · rw [if_pos h, if_neg (by omega)]
    · rw [if_neg h, if_pos (by omega)]

lemma max_zero_sub_natCast (k1 k2 : ℕ) :
    max (0 : ℚ) ((k1 : ℚ) - (k2 : ℚ)) = ((k1 - k2 : ℕ) : ℚ) := by
  rcases le_total k2 k1 with h | h
  · rw [Nat.cast_sub h]
    exact max_eq_right (sub_nonneg.mpr (by exact_mod_cast h))
  · rw [Nat.sub_eq_zero_of_le h, Nat.cast_zero]
    exact max_eq_left (sub_nonpos.mpr (by exact_mod_cast h))

/-- C4.  In every optimal solution of the built model the hit count is
exact for every week `w ≥ 1`:
`transfer_hits[w] = max(0, transfers_made[w] - free_transfers[w-1])`.
The constraints only force `≥`; optimality forces equality because the
objective subtracts `POINTS_PER_HIT > 0` per hit, so lowering an inflated
hit variable to the max-expression would stay feasible and strictly
improve the objective. -/
theorem claim_C4_transfer_hits_exact (pd : PlayerTable)
    (rules : EnforcedRules) (prm : SolveParams) (a : Assignment)
    (hopt : Optimal pd rules prm a) (w : ℕ) (h1 : 1 ≤ w)
    (h2 : w < prm.num_gameweeks) :
    a.transfer_hits w =
      max 0 (a.transfers_made w - a.free_transfers_available (w - 1)) := by
  obtain ⟨hf, hmax⟩ := hopt
  set m : ℚ :=
    max 0 (a.transfers_made w - a.free_transfers_available (w - 1)) with hm
  have hge : m ≤ a.transfer_hits w :=
    max_le (hf.Transfer_Hits_Calc_2 w h1 h2) (hf.Transfer_Hits_Calc_1 w h1 h2)
  have hm_nat : isNatVal m := by
    obtain ⟨k1, e1⟩ := hf.made_nat w h1 h2
    obtain ⟨k2, e2⟩ := hf.ft_nat (w - 1) (by omega)
    exact ⟨k1 - k2, by rw [hm, e1, e2, max_zero_sub_natCast]⟩
  let b : Assignment := { a with transfer_hits := Function.update a.transfer_hits w m }
  have hfb : Feasible pd rules prm b :=
    { hf with
      hits_nat := by
        intro j hj1 hj2
        show isNatVal (Function.update a.transfer_hits w m j)
        by_cases hjw : j = w
        · subst hjw
          rw [Function.update_same]
          exact hm_nat
        · rw [Function.update_noteq hjw]
          exact hf.hits_nat j hj1 hj2
      Transfer_Hits_Calc_1 := by
        intro j hj1 hj2
        show Function.update a.transfer_hits w m j ≥
          a.transfers_made j - a.free_transfers_available (j - 1)
        by_cases hjw : j = w
        · subst hjw
          rw [Function.update_same, hm]
          exact le_max_right _ _
        · rw [Function.update_noteq hjw]
          exact hf.Transfer_Hits_Calc_1 j hj1 hj2
      Transfer_Hits_Calc_2 := by
        intro j hj1 hj2
        show Function.update a.transfer_hits w m j ≥ 0
        by_cases hjw : j = w
        · subst hjw
          rw [Function.update_same, hm]
          exact le_max_left _ _
        · rw [Function.update_noteq hjw]
          exact hf.Transfer_Hits_Calc_2 j hj1 hj2 }
  have hwmem : w ∈ Finset.Ico 1 prm.num_gameweeks := Finset.mem_Ico.mpr ⟨h1, h2⟩
  have hsum_b : ∑ j ∈ Finset.Ico 1 prm.num_gameweeks, b.transfer_hits j
      = m + ∑ j ∈ Finset.Ico 1 prm.num_gameweeks \ {w}, a.transfer_hits j :=
    Finset.sum_update_of_mem hwmem a.transfer_hits m
  have hsum_a : ∑ j ∈ Finset.Ico 1 prm.num_gameweeks, a.transfer_hits j
      = ∑ j ∈ Finset.Ico 1 prm.num_gameweeks \ {w}, a.transfer_hits j
          + a.transfer_hits w := by
    rw [Finset.sum_eq_sum_diff_singleton_add hwmem a.transfer_hits]
  have hcomp : objective pd prm b ≤ objective pd prm a := hmax b hfb
  rw [objective_eq_spec, objective_eq_spec] at hcomp
  unfold specObjective at hcomp
  have hweeks :
      (∑ j ∈ Finset.range prm.num_gameweeks,
        (base_points_expression pd b j + captain_points_bonus pd b j +
         total_bench_boost_points pd b j + total_triple_captain_bonus pd b j))
      = ∑ j ∈ Finset.range prm.num_gameweeks,
          (base_points_expression pd a j + captain_points_bonus pd a j +
           total_bench_boost_points pd a j +
           total_triple_captain_bonus pd a j) := rfl
  rw [hweeks, hsum_b, hsum_a] at hcomp
  have hph : POINTS_PER_HIT = (4 : ℚ) := rfl
  rw [hph] at hcomp
  have hle : a.transfer_hits w ≤ m := by linarith
  exact le_antisymm hle hge

/-- C10 witness.  The free-transfer reporting rule evaluated on the
concrete one-week instance: the single (hence final) week reports 0. -/
theorem claim_C10_witness :
    ((solveResult cexSt0 cexPrm
        (SolveOutcome.finished LpStatusCode.optimal cexAsg)).1.selected_squad_history)[0]?
      = some (gwActual cexSt0.player_data 0,
          extractGw cexSt0.player_data cexPrm cexAsg 0) ∧
    (extractGw cexSt0.player_data cexPrm cexAsg 0).free_transfers_available_next_gw
      = (if 0 + 1 = cexPrm.num_gameweeks then 0
         else pyRound (cexAsg.free_transfers_available 0)) :=
  claim_C10_final_week_free_transfers cexSt0 cexPrm cexAsg 0 (by norm_num [cexPrm])

/-- Positions of the 15-player witness pool: players 0-1 GK, 2-6 DEF,
7-11 MID, 12-14 FWD. -/
def wPos : ℕ → Pos := fun p =>
  if p < 2 then Pos.GK else if p < 7 then Pos.DEF
  else if p < 12 then Pos.MID else Pos.FWD

/-- Teams of the witness pool: five teams of three players each. -/
def wTeam : ℕ → String := fun i =>
  if i < 3 then "Ant" else if i < 6 then "Bee" else if i < 9 then "Cat"
  else if i < 12 then "Dog" else "Eel"

/-- Starting-XI indicator of the witness solution: players 0 (GK), 2-10
(5 DEF and 4 MID) and 12 (FWD) start, eleven in all. -/
def wStart : ℕ → ℚ := fun p =>
  if p = 0 ∨ (2 ≤ p ∧ p ≤ 10) ∨ p = 12 then 1 else 0

/-- A 15-player score table with all projected points zero (so the
objective of any feasible assignment is at most the no-hit value 0). -/
def wPd : PlayerTable :=
  { P := 15
    name := fun _ => "Witness Player"
    team := wTeam
    pos := wPos
    cost := fun _ => 1
    xp := fun _ _ => 0
    firstGw := 1 }

/-- No enforcement rules (as under the shipped `config.py`). -/
def wRules : EnforcedRules := { playerIdx := [], teamPos := [] }

/-- Two-week solve parameters with zero chip allowances. -/
def wPrm : SolveParams :=
  { budget := 100
    max_players_per_team := 3
    chip_allowances := { bench_boost := some 0, triple_captain := some 0 }
    num_gameweeks := 2 }

/-- A concrete feasible (indeed optimal) assignment: the full pool is the
squad both weeks, no transfers, no chips, player 0 captains. -/
def wA : Assignment :=
  { player_vars := fun _ _ => 1
    starting_xi_vars := fun p _ => wStart p
    captain_var := fun p _ => if p = 0 then 1 else 0
    use_bench_boost := fun _ => 0
    use_triple_captain := fun _ => 0
    transfer_in_vars := fun _ _ => 0
    transfer_out_vars := fun _ _ => 0
    transfers_made := fun _ => 0
    free_transfers_available := fun w => if w = 0 then 1 else 2
    transfer_hits := fun _ => 0
    is_bench_player := fun p _ => 1 - wStart p
    actual_bench_boost_points := fun _ _ => 0
    actual_triple_captain_bonus := fun _ _ => 0 }

lemma wStart_bin (p : ℕ) : isBin (wStart p) := by
  unfold wStart isBin
  split <;> simp

lemma wFeasible : Feasible wPd wRules wPrm wA := by
  constructor
  case player_bin => intro i _ w _; right; rfl
  case starting_bin => intro i _ w _; exact wStart_bin i
  case captain_bin =>
    intro i _ w _
    by_cases h : i = 0
    · right
      simp [wA, h]
    · left
      simp [wA, h]
  case bench_boost_bin => intro w _; left; rfl
  case triple_captain_bin => intro w _; left; rfl
  case tin_bin => intro i _ w _ _; left; rfl
  case tout_bin => intro i _ w _ _; left; rfl
  case made_nat => intro w _ _; exact ⟨0, rfl⟩
  case ft_nat =>
    intro w hw
    have hw2 : w < 2 := hw
    interval_cases w
    · exact ⟨1, by norm_num [wA]⟩
    · exact ⟨2, by norm_num [wA]⟩
  case ft_ub =>
    intro w hw
    have hw2 : w < 2 := hw
    interval_cases w <;> norm_num [wA, MAX_FREE_TRANSFERS_SAVED]
  case hits_nat => intro w _ _; exact ⟨0, rfl⟩
  case is_bench_bin =>
    intro i _ w _
    rcases wStart_bin i with h | h <;> simp [wA, h, isBin]
  case bb_points_lb => intro i _ w _; norm_num [wA]
  case tc_bonus_lb => intro i _ w _; norm_num [wA]
  case IsBench_Squad =>
    intro i _ w _
    rcases wStart_bin i with h | h <;> norm_num [wA, h]
  case IsBench_NotStarter => intro i _ w _; norm_num [wA]
  case IsBench_Logical => intro i _ w _; norm_num [wA]
  case BenchBoost_Contr_1 => intro i _ w _; norm_num [wA, wPd]
  case BenchBoost_Contr_2 => intro i _ w _; norm_num [wA, wPd]
  case BenchBoost_Contr_3 =>
    intro i _ w _
    norm_num [wA, wPd]
  case BenchBoost_Contr_4 => intro i _ w _; norm_num [wA]
  case TripleCaptain_Contr_1 => intro i _ w _; norm_num [wA, wPd]
  case TripleCaptain_Contr_2 => intro i _ w _; norm_num [wA, wPd]
  case TripleCaptain_Contr_3 =>
    intro i _ w _
    norm_num [wA, wPd]
  case TripleCaptain_Contr_4 => intro i _ w _; norm_num [wA]
  case Total_Players =>
    intro w _
    norm_num [wA, wPd, Finset.sum_range_succ]
  case Goalkeepers_Count =>
    intro w _
    rw [posIdx, Finset.sum_filter]
    simp only [Finset.sum_range_succ, Finset.sum_range_zero, wPd]
    simp [wPos, wA]
    all_goals norm_num
  case Defenders_Count =>
    intro w _
    rw [posIdx, Finset.sum_filter]
    simp only [Finset.sum_range_succ, Finset.sum_range_zero, wPd]
    simp [wPos, wA]
    all_goals norm_num
  case Midfielders_Count =>
    intro w _
    rw [posIdx, Finset.sum_filter]
    simp only [Finset.sum_range_succ, Finset.sum_range_zero, wPd]
    simp [wPos, wA]
    all_goals norm_num
  case Forwards_Count =>
    intro w _
    rw [posIdx, Finset.sum_filter]
    simp only [Finset.sum_range_succ, Finset.sum_range_zero, wPd]
    simp [wPos, wA]
    all_goals norm_num
  case Total_Budget =>
    intro w _
    norm_num [wA, wPd, wPrm, Finset.sum_range_succ]
  case Max_Players_from_team =>
    intro w _ t ht
    simp only [teamsOf, wPd, Finset.mem_image, Finset.mem_range] at ht
    obtain ⟨i, hi, rfl⟩ := ht
    rw [teamIdx, Finset.sum_filter]
    simp only [Finset.sum_range_succ, Finset.sum_range_zero, wPd, wA, wPrm]
    interval_cases i <;> simp [wTeam] <;> norm_num
  case Total_Starting_XI_Players =>
    intro w _
    simp only [wA, wPd, Finset.sum_range_succ, Finset.sum_range_zero]
    simp [wStart]
    all_goals norm_num
  case StartingXI_in_Squad =>
    intro i _ w _
    rcases wStart_bin i with h | h <;> norm_num [wA, h]
  case Starting_Goalkeepers_Count =>
    intro w _
    rw [posIdx, Finset.sum_filter]
    simp only [Finset.sum_range_succ, Finset.sum_range_zero, wPd, wA]
    simp [wPos, wStart]
  case Min_Starting_Defenders_Count =>
    intro w _
    rw [posIdx, Finset.sum_filter]
    simp only [Finset.sum_range_succ, Finset.sum_range_zero, wPd, wA]
    simp [wPos, wStart]
    all_goals norm_num
  case Min_Starting_Midfielders_Count =>
    intro w _
    rw [posIdx, Finset.sum_filter]
    simp only [Finset.sum_range_succ, Finset.sum_range_zero, wPd, wA]
    simp [wPos, wStart]
    all_goals norm_num
  case Min_Starting_Forwards_Count =>
    intro w _
    rw [posIdx, Finset.sum_filter]
    simp only [Finset.sum_range_succ, Finset.sum_range_zero, wPd, wA]
    simp [wPos, wStart]
  case One_Captain =>
    intro w _
    simp only [wA, wPd, Finset.sum_range_succ, Finset.sum_range_zero]
    simp
  case Captain_in_StartingXI =>
    intro i _ w _
    by_cases h : i = 0
    · subst h; norm_num [wA, wStart]
    · rcases wStart_bin i with hs | hs <;> simp [wA, h, hs]
  case Enforce_Player =>
    intro j hj
    exact absurd hj (by simp [wRules])
  case Enforce_TeamPos =>
    intro tq htq
    exact absurd htq (by simp [wRules])
  case Max_Bench_Boost_Usage_Total =>
    norm_num [wA, wPrm, ChipAllowances.getBenchBoost, Finset.sum_range_succ]
  case Max_Triple_Captain_Usage_Total =>
    norm_num [wA, wPrm, ChipAllowances.getTripleCaptain, Finset.sum_range_succ]
  case Initial_Free_Transfers =>
    intro _
    norm_num [wA, INITIAL_FREE_TRANSFERS]
  case Transfers_Made =>
    intro w hw1 hw2
    norm_num [wA, wPd, Finset.sum_range_succ]
  case Transfers_In_Equals_Out =>
    intro w hw1 hw2
    norm_num [wA]
  case Free_Transfers_Calc_1 =>
    intro w hw1 hw2
    have hlt : w < 2 := hw2
    have hw : w = 1 := by omega
    subst hw
    norm_num [wA]
  case Free_Transfers_Calc_2 =>
    intro w hw1 hw2
    have hlt : w < 2 := hw2
    have hw : w = 1 := by omega
    subst hw
    norm_num [wA, MAX_FREE_TRANSFERS_SAVED]
  case Free_Transfers_Non_Negative =>
    intro w hw1 hw2
    have hlt : w < 2 := hw2
    have hw : w = 1 := by omega
    subst hw
    norm_num [wA]
  case Transfer_Hits_Calc_1 =>
    intro w hw1 hw2
    have hlt : w < 2 := hw2
    have hw : w = 1 := by omega
    subst hw
    norm_num [wA]
  case Transfer_Hits_Calc_2 =>
    intro w hw1 hw2
    norm_num [wA]
  case Squad_Continuity =>
    intro i _ w hw1 hw2
    norm_num [wA]
  case No_Simultaneous_Transfer =>
    intro i _ w hw1 hw2
    norm_num [wA]

lemma wObjective_zero : objective wPd wPrm wA = 0 := by
  rw [objective_eq_spec]
  unfold specObjective base_points_expression captain_points_bonus
    total_bench_boost_points total_triple_captain_bonus
  norm_num [wPd, wA, wPrm, Finset.sum_range_succ]

lemma wObjective_ub (b : Assignment) (hf : Feasible wPd wRules wPrm b) :
    objective wPd wPrm b ≤ 0 := by
  rw [objective_eq_spec]
  unfold specObjective
  have hbase : ∀ j, base_points_expression wPd b j = 0 := by
    intro j
    unfold base_points_expression
    simp [wPd]
  have hcapt : ∀ j, captain_points_bonus wPd b j = 0 := by
    intro j
    unfold captain_points_bonus
    simp [wPd]
  have hbb : ∀ j < wPrm.num_gameweeks, total_bench_boost_points wPd b j ≤ 0 := by
    intro j hj
    unfold total_bench_boost_points
    apply Finset.sum_nonpos
    intro i hi
    have h := hf.BenchBoost_Contr_1 i (Finset.mem_range.mp hi) j hj
    simpa [wPd] using h
  have htc : ∀ j < wPrm.num_gameweeks,
      total_triple_captain_bonus wPd b j ≤ 0 := by
    intro j hj
    unfold total_triple_captain_bonus
    apply Finset.sum_nonpos
    intro i hi
    have h := hf.TripleCaptain_Contr_1 i (Finset.mem_range.mp hi) j hj
    simpa [wPd] using h
  have hweeks : ∑ j ∈ Finset.range wPrm.num_gameweeks,
      (base_points_expression wPd b j + captain_points_bonus wPd b j +
       total_bench_boost_points wPd b j +
       total_triple_captain_bonus wPd b j) ≤ 0 := by
    apply Finset.sum_nonpos
    intro j hj
    have hjlt := Finset.mem_range.mp hj
    have h1 := hbb j hjlt
    have h2 := htc j hjlt
    rw [hbase j, hcapt j]
    linarith
  have hhits : 0 ≤ ∑ j ∈ Finset.Ico 1 wPrm.num_gameweeks, b.transfer_hits j := by
    apply Finset.sum_nonneg
    intro j hj
    obtain ⟨hj1, hj2⟩ := Finset.mem_Ico.mp hj
    exact hf.Transfer_Hits_Calc_2 j hj1 hj2
  have hph : POINTS_PER_HIT = (4 : ℚ) := rfl
  rw [hph]
  linarith

lemma wOptimal : Optimal wPd wRules wPrm wA := by
  refine ⟨wFeasible, fun b hfb => ?_⟩
  rw [wObjective_zero]
  exact wObjective_ub b hfb

/-- C3 witness.  The continuity law instantiated on the concrete feasible
two-week assignment, at player 3 and week 1. -/
theorem claim_C3_witness :
    wA.player_vars 3 1 =
      wA.player_vars 3 0 - wA.transfer_out_vars 3 1 +
        wA.transfer_in_vars 3 1 :=
  claim_C3_squad_continuity wPd wRules wPrm wA wFeasible 3
    (by norm_num [wPd]) 1 (by norm_num) (by norm_num [wPrm])

/-- C4 witness.  The exact-hit law instantiated on the concrete optimal
two-week assignment at week 1. -/
theorem claim_C4_witness :
    wA.transfer_hits 1 =
      max 0 (wA.transfers_made 1 - wA.free_transfers_available 0) :=
  claim_C4_transfer_hits_exact wPd wRules wPrm wA wOptimal 1 le_rfl
    (by norm_num [wPrm])

/-- C5 witness.  The chip-linearization law instantiated on the concrete
feasible assignment at the benched forward 14 in week 0. -/
theorem claim_C5_witness :
    wA.actual_bench_boost_points 14 0 =
      (if wA.is_bench_player 14 0 = 1 ∧ wA.use_bench_boost 0 = 1
       then wPd.xp 14 (gwActual wPd 0) else 0) ∧
    wA.actual_triple_captain_bonus 14 0 =
      (if wA.captain_var 14 0 = 1 ∧ wA.use_triple_captain 0 = 1
       then wPd.xp 14 (gwActual wPd 0) else 0) :=
  claim_C5_chip_linearization.2 wPd wRules wPrm wA wFeasible 14
    (by norm_num [wPd]) 0 (by norm_num [wPrm]) (by norm_num [wPd])

/-- C6 witness.  With the concrete zero allowances, both chips are forced
off in week 0 and the bonus variables of player 0 are zero. -/
theorem claim_C6_witness :
    wA.use_bench_boost 0 = 0 ∧ wA.actual_bench_boost_points 0 0 = 0 ∧
    wA.use_triple_captain 0 = 0 ∧ wA.actual_triple_captain_bonus 0 0 = 0 := by
  have h := claim_C6_zero_allowance_excludes_chip wPd wRules wPrm wA wFeasible
  have hbb := h.1 (by norm_num [wPrm, ChipAllowances.getBenchBoost])
  have htc := h.2 (by norm_num [wPrm, ChipAllowances.getTripleCaptain])
  exact ⟨hbb.1 0 (by norm_num [wPrm]),
    hbb.2 0 (by norm_num [wPd]) 0 (by norm_num [wPrm]),
    htc.1 0 (by norm_num [wPrm]),
    htc.2 0 (by norm_num [wPd]) 0 (by norm_num [wPrm])⟩

/-- C7 witness.  A table with only the name and cost columns is rejected,
with the error naming the three missing columns. -/
theorem claim_C7_witness :
    initCheck ["name", "cost"] =
      Except.error (missing_columns ["name", "cost"]) ∧
    missing_columns ["name", "cost"] ≠ [] :=
  (claim_C7_required_columns ["name", "cost"]).2.1
    ⟨"team", by simp [requiredColumns], by simp⟩

end FplSolver
